import Mathlib

/-!
Shallow embedding of the covid-vacc-poll polling engine
(src/service.rs, src/service/booked4us.rs, src/notification.rs).

The external HTTP/JSON collaborators (reqwest transport, JSON parsing,
the Gotify wire protocol) are modelled as explicit inputs: the overview
fetch and the per-item free-slot probe become `Except`-valued fields of a
`PollEnv`, and each notification sink's lock/send outcomes become fields
of a `SinkSpec`.  Everything else follows the Rust source line by line.
-/

deriving instance DecidableEq for Except

namespace CovidVaccPoll

/-- One calendar entry (src/service/booked4us.rs, struct Detail). -/
structure Detail where
  id : Nat
  name : String
deriving DecidableEq

/-- Result of one poll (src/service.rs, enum PollResult). -/
inductive PollResult where
  | none
  | normal (msg : String)
  | urgent (msg : String)
deriving DecidableEq

/-- Mutable state of the booked4us provider (src/service/booked4us.rs,
struct Booked4us; the reqwest client field is stateless I/O plumbing).
`details` models the HashMap from id to Detail as the insertion list. -/
structure Booked4us where
  url : String
  free_ids : Finset Nat
  details : List Detail
deriving DecidableEq

/-- Outcomes of the external collaborators during one poll: the overview
fetch (Booked4us::get_overview, transport plus parse collapsed into one
Except) and the per-id free-slot probe (Booked4us::has_free_slots). -/
structure PollEnv where
  overview : Except String (List Detail)
  probe : Nat → Except String Bool

/-- Booked4us::extract_free_slots: probe each known id in order, keep the
details with a free slot; the first probe failure aborts the poll. -/
def extract_free_slots (probe : Nat → Except String Bool) : List Detail → Except String (List Detail)
  | [] => Except.ok []
  | d :: rest =>
    match probe d.id with
    | Except.error e => Except.error e
    | Except.ok b =>
      match extract_free_slots probe rest with
      | Except.error e => Except.error e
      | Except.ok tl => Except.ok (if b then d :: tl else tl)

/-- Booked4us::map_to_set: the id set of a slot map. -/
def map_to_set (slots : List Detail) : Finset Nat :=
  (slots.map Detail.id).toFinset

/-- Booked4us::extract_added_slots: details of the newly free ids
(present in the observed free slots, absent from the stored set). -/
def extract_added_slots (st : Booked4us) (free_slots : List Detail) : List Detail :=
  free_slots.filter (fun d => decide (d.id ∉ st.free_ids))

/-- Booked4us::extract_removed_slots: stored details whose id was free
before but is no longer free. -/
def extract_removed_slots (st : Booked4us) (free_set : Finset Nat) : List Detail :=
  st.details.filter (fun d => decide (d.id ∈ st.free_ids \ free_set))

/-- Symmetric difference of two id sets, as computed by
HashSet::symmetric_difference in Booked4us::has_changed. -/
def symmDiffFS (P N : Finset Nat) : Finset Nat :=
  (P \ N) ∪ (N \ P)

/-- Booked4us::has_changed: the symmetric difference of the stored and
the observed free-id sets is nonempty. -/
def has_changed (st : Booked4us) (free_set : Finset Nat) : Bool :=
  decide (symmDiffFS st.free_ids free_set ≠ ∅)

/-- Booked4us::vec_to_markdown. -/
def vec_to_markdown (slots : List Detail) : String :=
  slots.foldl (fun text slot => text ++ " * " ++ slot.name ++ " -- ID: " ++ toString slot.id ++ "\n") ""

/-- The notification text built in Booked4us::async_poll. -/
def poll_text (added free_slots removed : List Detail) (url : String) : String :=
  "Frei gewordene Kategorien:\n" ++ vec_to_markdown added
    ++ "\nAlle freien Kategorien:\n" ++ vec_to_markdown free_slots
    ++ "\nNicht mehr frei:\n" ++ vec_to_markdown removed
    ++ "\nURL: " ++ url ++ "\n"

/-- Booked4us::async_poll (the body of ServiceProvider::poll_once):
fetch the overview, probe for free slots, and classify against the
stored state.  The stored free-id set and detail map are replaced only
inside the has_changed branch, exactly as in the source. -/
def async_poll (st : Booked4us) (env : PollEnv) : Except String (PollResult × Booked4us) :=
  match env.overview with
  | Except.error e => Except.error e
  | Except.ok details =>
    match extract_free_slots env.probe details with
    | Except.error e => Except.error e
    | Except.ok free_slots =>
      let free_set := map_to_set free_slots
      if has_changed st free_set then
        let added := extract_added_slots st free_slots
        let removed := extract_removed_slots st free_set
        let text := poll_text added free_slots removed st.url
        let st2 : Booked4us := { st with free_ids := free_set, details := details }
        if added.isEmpty then Except.ok (PollResult.normal text, st2)
        else Except.ok (PollResult.urgent text, st2)
      else Except.ok (PollResult.none, st)

/-- One notification sink as seen by the fan-out code
(src/notification.rs): the outcome of locking its mutex
(Err of Mutex::lock, wrapped in a GenericError string) and the outcomes
of Notificator::send_normal and Notificator::send_urgent.  `none` means
success. -/
structure SinkSpec where
  lock_err : Option String
  normal_err : Option String
  urgent_err : Option String
deriving DecidableEq

/-- A sink that locks and sends successfully. -/
def okSink (x : SinkSpec) : Prop :=
  x.lock_err = Option.none ∧ x.normal_err = Option.none ∧ x.urgent_err = Option.none

instance (x : SinkSpec) : Decidable (okSink x) := by
  unfold okSink
  infer_instance

/-- The shared loop body of NotificatorSubCollection::send_normal and
send_urgent: iterate the ordered sink list; a lock failure returns its
error without invoking that sink, a send failure returns its error, and
`?` aborts the remaining sinks.  Besides the Result, the second
component records for each sink of the list whether its send method was
invoked in this call. -/
def fanout (f : SinkSpec → Option String) : List SinkSpec → Except String Unit × List Bool
  | [] => (Except.ok (), [])
  | s :: rest =>
    match s.lock_err with
    | Option.some e => (Except.error e, false :: rest.map (fun _ => false))
    | Option.none =>
      match f s with
      | Option.some e => (Except.error e, true :: rest.map (fun _ => false))
      | Option.none =>
        let r := fanout f rest
        (r.1, true :: r.2)

/-- NotificatorSubCollection::send_normal (impl Notificator). -/
def send_normal (sinks : List SinkSpec) : Except String Unit × List Bool :=
  fanout (fun x => x.normal_err) sinks

/-- NotificatorSubCollection::send_urgent (impl Notificator). -/
def send_urgent (sinks : List SinkSpec) : Except String Unit × List Bool :=
  fanout (fun x => x.urgent_err) sinks

/-- AdminNotificationsSender::send: the queued admin message is
`format!("{}: {}", title, message)`. -/
def admin_send (title message : String) : String :=
  title ++ ": " ++ message

/-- Observable outcome of the poll-and-notify part of one iteration of
the worker loop in Service::new: the provider state afterwards, the
messages enqueued to AdminNotifications, and which subscription sinks
received the message. -/
structure CycleResult where
  provider : Booked4us
  admin_msgs : List String
  delivered : List Bool
deriving DecidableEq

/-- The poll-and-notify part of one iteration of the worker loop spawned
by Service::new: poll_once, then on Urgent/Normal fan out over the
subscription, forwarding a poll error or a delivery error to the admin
channel with the service title. -/
def serviceCycle (title : String) (st : Booked4us) (env : PollEnv) (sinks : List SinkSpec) : CycleResult :=
  match async_poll st env with
  | Except.error e => ⟨st, [admin_send title e], sinks.map (fun _ => false)⟩
  | Except.ok (PollResult.urgent _, st2) =>
    let r := send_urgent sinks
    match r.1 with
    | Except.ok _ => ⟨st2, [], r.2⟩
    | Except.error e => ⟨st2, [admin_send title e], r.2⟩
  | Except.ok (PollResult.normal _, st2) =>
    let r := send_normal sinks
    match r.1 with
    | Except.ok _ => ⟨st2, [], r.2⟩
    | Except.error e => ⟨st2, [admin_send title e], r.2⟩
  | Except.ok (PollResult.none, st2) => ⟨st2, [], sinks.map (fun _ => false)⟩

/-- Outcome of the sleep phase of one worker-loop iteration:
`ticks` one-second sleeps performed, the `running` flag afterwards, and
the indices at which kill_rx.try_recv() was called. -/
structure SleepResult where
  ticks : Nat
  running : Bool
  checks : List Nat
deriving DecidableEq

/-- The labelled sleep loop of Service::new
(`for _index in 0..sleep { sleep(1s); try_recv; }`): starting at index
`i` with `fuel` iterations left, sleep one second, then poll the kill
channel; a pending kill clears `running` and breaks out.  `kill j` tells
whether a kill signal is pending at the j-th check. -/
def sleepLoop (kill : Nat → Bool) : Nat → Nat → SleepResult
  | i, 0 => ⟨i, true, []⟩
  | i, fuel + 1 =>
    if kill i then ⟨i + 1, false, [i]⟩
    else
      let r := sleepLoop kill (i + 1) fuel
      ⟨r.ticks, r.running, i :: r.checks⟩

/-- The `running` flag of the worker's while-loop after `n` completed
iterations; `kf n` gives the kill-pending predicate during iteration
n's sleep phase.  Each iteration runs its sleep loop of `sleep` checks
from index 0. -/
def workerRunning (kf : Nat → Nat → Bool) (sleep : Nat) : Nat → Bool
  | 0 => true
  | n + 1 => workerRunning kf sleep n && (sleepLoop (kf n) 0 sleep).running

/-- One full iteration of the worker loop in Service::new:
poll-and-notify, then the sleep phase. -/
structure IterResult where
  cycle : CycleResult
  sleep_phase : SleepResult
deriving DecidableEq

/-- One full iteration of the worker loop: every branch of the
poll-and-notify match falls through to the same sleep loop. -/
def loopIter (title : String) (st : Booked4us) (env : PollEnv) (sinks : List SinkSpec) (sleep : Nat) (kill : Nat → Bool) : IterResult :=
  ⟨serviceCycle title st env sinks, sleepLoop kill 0 sleep⟩

/-- Settings of a Gotify sink (src/config.rs, struct GotifySettings). -/
structure GotifySettings where
  url : String
  application_token : String
deriving DecidableEq

/-- Settings of an email sink (src/config.rs, struct EmailSettings). -/
structure EmailSettings where
  from_addr : String
  to_addrs : List String
  subject : String
  smtp_host : String
  smtp_port : Nat
  smtp_user : String
  smtp_password : String
  smtp_starttls : Bool
deriving DecidableEq

/-- src/config.rs, enum NotificationSettings. -/
inductive NotificationSettings where
  | email (s : EmailSettings)
  | gotify (s : GotifySettings)
deriving DecidableEq

/-- A constructed sink object (src/notification/gotify.rs, struct
Gotify — the only Notificator implementation the registry ever builds). -/
structure Gotify where
  url : String
  application_token : String
deriving DecidableEq

/-- Gotify::new. -/
def Gotify.new (url application_token : String) : Gotify :=
  ⟨url, application_token⟩

/-- Gotify::from. -/
def Gotify.fromSettings (s : GotifySettings) : Gotify :=
  Gotify.new s.url s.application_token

/-- The empty string handed to the placeholder sink. -/
def empty_str : String :=
  ""

/-- NotificatorCollection::from: build the name-to-sink registry from the
configuration's notification entries; a gotify entry gets its configured
sink, an email entry gets `Gotify::new("", "")`.  The construction is
total: no entry is ever rejected. -/
def notificatorCollectionFrom (notifications : List (String × NotificationSettings)) : List (String × Gotify) :=
  notifications.map (fun p =>
    (p.1,
      match p.2 with
      | NotificationSettings.gotify s => Gotify.fromSettings s
      | NotificationSettings.email _ => Gotify.new empty_str empty_str))

/-- NotificatorCollection::subcollection: resolve each requested name in
order through `self.notificators[name]`; the map indexing panics when
the name is absent, modelled by `Option.none`. -/
def subcollection (reg : List (String × Gotify)) : List String → Option (List Gotify)
  | [] => Option.some []
  | n :: rest =>
    match reg.lookup n with
    | Option.none => Option.none
    | Option.some g =>
      match subcollection reg rest with
      | Option.none => Option.none
      | Option.some tl => Option.some (g :: tl)

/-! ### Helper lemmas -/

theorem symmDiffFS_eq_empty_iff (P N : Finset Nat) : symmDiffFS P N = ∅ ↔ P = N := by
  simp only [symmDiffFS, Finset.union_eq_empty, Finset.sdiff_eq_empty_iff_subset]
  constructor
  · rintro ⟨h1, h2⟩
    exact Finset.Subset.antisymm h1 h2
  · rintro rfl
    exact ⟨Finset.Subset.refl P, Finset.Subset.refl P⟩

theorem has_changed_false_iff (st : Booked4us) (N : Finset Nat) :
    has_changed st N = false ↔ st.free_ids = N := by
  simp [has_changed, symmDiffFS_eq_empty_iff]

theorem has_changed_true_iff (st : Booked4us) (N : Finset Nat) :
    has_changed st N = true ↔ st.free_ids ≠ N := by
  simp [has_changed, symmDiffFS_eq_empty_iff]

theorem added_isEmpty_iff (st : Booked4us) (l : List Detail) :
    (extract_added_slots st l).isEmpty = true ↔ map_to_set l \ st.free_ids = ∅ := by
  simp only [extract_added_slots, map_to_set, List.isEmpty_iff, List.filter_eq_nil_iff,
    decide_eq_true_eq, not_not, Finset.sdiff_eq_empty_iff_subset, Finset.subset_iff,
    List.mem_toFinset, List.mem_map]
  constructor
  · rintro h x ⟨d, hd, rfl⟩
    exact h d hd
  · intro h d hd
    exact h ⟨d, hd, rfl⟩

theorem async_poll_eq (st : Booked4us) (env : PollEnv) (details free_slots : List Detail)
    (h1 : env.overview = Except.ok details)
    (h2 : extract_free_slots env.probe details = Except.ok free_slots) :
    async_poll st env =
      if has_changed st (map_to_set free_slots) then
        if (extract_added_slots st free_slots).isEmpty then
          Except.ok (PollResult.normal
            (poll_text (extract_added_slots st free_slots) free_slots
              (extract_removed_slots st (map_to_set free_slots)) st.url),
            { st with free_ids := map_to_set free_slots, details := details })
        else
          Except.ok (PollResult.urgent
            (poll_text (extract_added_slots st free_slots) free_slots
              (extract_removed_slots st (map_to_set free_slots)) st.url),
            { st with free_ids := map_to_set free_slots, details := details })
      else Except.ok (PollResult.none, st) := by
  simp only [async_poll, h1, h2]

theorem fanout_all_ok (f : SinkSpec → Option String) (l : List SinkSpec)
    (h : ∀ x ∈ l, x.lock_err = Option.none ∧ f x = Option.none) :
    fanout f l = (Except.ok (), l.map (fun _ => true)) := by
  induction l with
  | nil => rfl
  | cons s rest ih =>
    obtain ⟨hl, hf⟩ := h s (List.mem_cons_self s rest)
    have hrest := ih (fun x hx => h x (List.mem_cons_of_mem s hx))
    simp [fanout, hl, hf, hrest]

theorem fanout_append_ok (f : SinkSpec → Option String) (pre l : List SinkSpec)
    (h : ∀ x ∈ pre, x.lock_err = Option.none ∧ f x = Option.none) :
    fanout f (pre ++ l) = ((fanout f l).1, pre.map (fun _ => true) ++ (fanout f l).2) := by
  induction pre with
  | nil => rfl
  | cons s rest ih =>
    obtain ⟨hl, hf⟩ := h s (List.mem_cons_self s rest)
    have hrest := ih (fun x hx => h x (List.mem_cons_of_mem s hx))
    simp [fanout, hl, hf, hrest]

theorem fanout_fail_head (f : SinkSpec → Option String) (s : SinkSpec) (post : List SinkSpec)
    (e : String) (h1 : s.lock_err = Option.none) (h2 : f s = Option.some e) :
    fanout f (s :: post) = (Except.error e, true :: post.map (fun _ => false)) := by
  simp [fanout, h1, h2]

theorem subcollection_eq_none_iff (reg : List (String × Gotify)) (names : List String) :
    subcollection reg names = Option.none ↔ ∃ n ∈ names, reg.lookup n = Option.none := by
  induction names with
  | nil => simp [subcollection]
  | cons n rest ih =>
    cases hl : reg.lookup n with
    | none =>
      simp only [subcollection, hl]
      constructor
      · intro _
        exact ⟨n, List.mem_cons_self n rest, hl⟩
      · intro _
        trivial
    | some g =>
      cases hr : subcollection reg rest with
      | none =>
        simp only [subcollection, hl, hr]
        constructor
        · intro _
          obtain ⟨m, hm, hlm⟩ := ih.mp hr
          exact ⟨m, List.mem_cons_of_mem n hm, hlm⟩
        · intro _
          trivial
      | some tl =>
        simp only [subcollection, hl, hr]
        constructor
        · intro hcontra
          exact absurd hcontra (by simp)
        · rintro ⟨m, hm, hlm⟩
          rcases List.mem_cons.mp hm with hm1 | hm1
          · rw [hm1] at hlm
            rw [hlm] at hl
            exact absurd hl (by simp)
          · rw [ih.mpr ⟨m, hm1, hlm⟩] at hr
            exact absurd hr (by simp)

theorem lookup_eq_of_mem (l : List (String × Gotify)) (a : String) (b : Gotify)
    (hm : (a, b) ∈ l) (hn : (l.map Prod.fst).Nodup) : l.lookup a = Option.some b := by
  induction l with
  | nil => cases hm
  | cons p rest ih =>
    rcases List.mem_cons.mp hm with hp | hp
    · rw [← hp]
      simp [List.lookup]
    · rw [List.map_cons, List.nodup_cons] at hn
      have hne : p.1 ≠ a := by
        intro heq
        exact hn.1 (heq ▸ List.mem_map_of_mem Prod.fst hp)
      have hba : (a == p.1) = false := by
        simp [Ne.symm hne]
      cases p with
      | mk p1 p2 =>
        simp only at hba
        simp [List.lookup, hba, ih hp hn.2]

/-- Discriminator for the None variant of PollResult. -/
def PollResult.isNone : PollResult → Bool
  | PollResult.none => true
  | _ => false

/-- Discriminator for the Normal variant of PollResult. -/
def PollResult.isNormal : PollResult → Bool
  | PollResult.normal _ => true
  | _ => false

/-- Discriminator for the Urgent variant of PollResult. -/
def PollResult.isUrgent : PollResult → Bool
  | PollResult.urgent _ => true
  | _ => false

/-! ### Concrete inputs used by witnesses and counterexamples -/

/-- Sample detail with id 1. -/
def d1 : Detail :=
  ⟨1, empty_str⟩

/-- Sample detail with id 2. -/
def d2 : Detail :=
  ⟨2, empty_str⟩

/-- Sample detail with id 3. -/
def d3 : Detail :=
  ⟨3, empty_str⟩

/-- Provider state whose stored free ids are {1, 2}. -/
def st12 : Booked4us :=
  ⟨empty_str, ({1, 2} : Finset Nat), [d1, d2]⟩

/-- Environment observing free slots {1, 2} (no change against st12). -/
def env12 : PollEnv :=
  ⟨Except.ok [d1, d2], fun _ => Except.ok true⟩

/-- Environment observing free slots {1, 2, 3}. -/
def env123 : PollEnv :=
  ⟨Except.ok [d1, d2, d3], fun _ => Except.ok true⟩

/-- Environment observing overview {1, 2} with only id 1 free. -/
def env1of12 : PollEnv :=
  ⟨Except.ok [d1, d2], fun i => Except.ok (i == 1)⟩

/-- Empty provider state. -/
def st_empty : Booked4us :=
  ⟨empty_str, (∅ : Finset Nat), []⟩

/-- Environment whose overview lists detail 1 but whose probe reports no
free slot anywhere. -/
def env_nofree : PollEnv :=
  ⟨Except.ok [d1], fun _ => Except.ok false⟩

/-- An error text used in concrete inputs. -/
def boom : String :=
  "boom"

/-- Environment whose per-item probe fails with a transport error. -/
def env_probe_fail : PollEnv :=
  ⟨Except.ok [d1], fun _ => Except.error boom⟩

/-- A sink that locks and delivers successfully. -/
def sink_ok : SinkSpec :=
  ⟨Option.none, Option.none, Option.none⟩

/-- A sink that locks but fails both send methods. -/
def sink_bad : SinkSpec :=
  ⟨Option.none, Option.some boom, Option.some boom⟩

/-- A sink whose mutex is poisoned: locking fails. -/
def sink_locked : SinkSpec :=
  ⟨Option.some boom, Option.none, Option.none⟩

/-! ### Claims -/

/-- C1: for every previous free-id set and newly observed free-id set
(reached through a successful overview fetch and slot probing), the poll
classification is None iff the symmetric difference of the stored and
observed id sets is empty; in particular polling a state against an
observation equal to it yields None, and the worker then invokes no
notification sink. -/
theorem c1_classify_none_iff (st : Booked4us) (env : PollEnv) (details free_slots : List Detail)
    (h1 : env.overview = Except.ok details)
    (h2 : extract_free_slots env.probe details = Except.ok free_slots) :
    (async_poll st env = Except.ok (PollResult.none, st) ↔
      symmDiffFS st.free_ids (map_to_set free_slots) = ∅)
    ∧ (st.free_ids = map_to_set free_slots →
        async_poll st env = Except.ok (PollResult.none, st)
        ∧ ∀ title sinks, (serviceCycle title st env sinks).delivered = sinks.map (fun _ => false)) := by
  have heq := async_poll_eq st env details free_slots h1 h2
  cases hch : has_changed st (map_to_set free_slots) with
  | false =>
    rw [hch] at heq
    simp only [Bool.false_eq_true, if_false] at heq
    have hfe : st.free_ids = map_to_set free_slots := (has_changed_false_iff _ _).mp hch
    refine ⟨?_, ?_⟩
    · rw [heq, symmDiffFS_eq_empty_iff]
      simp [hfe]
    · intro _
      refine ⟨heq, ?_⟩
      intro title sinks
      simp [serviceCycle, heq]
  | true =>
    rw [hch] at heq
    simp only [if_true] at heq
    have hne := (has_changed_true_iff _ _).mp hch
    refine ⟨?_, ?_⟩
    · rw [heq, symmDiffFS_eq_empty_iff]
      by_cases hadd : (extract_added_slots st free_slots).isEmpty
      · simp [hadd, hne]
      · simp [hadd, hne]
    · intro hfe
      exact absurd hfe hne

/-- C1 witness: with stored free ids {1, 2} and observed free slots
{1, 2}, the poll yields None and no sink of the subscription receives a
message. -/
theorem c1_witness :
    async_poll st12 env12 = Except.ok (PollResult.none, st12)
    ∧ (serviceCycle empty_str st12 env12 [sink_ok]).delivered = [false] := by
  have h := (c1_classify_none_iff st12 env12 [d1, d2] [d1, d2] rfl (by decide)).2 (by decide)
  exact ⟨h.1, by simpa using h.2 empty_str [sink_ok]⟩

/-- C2: when the symmetric difference of the stored and observed free-id
sets is nonempty, the poll result is Urgent iff the set of newly added
free ids (observed minus stored) is nonempty, and Normal otherwise:
urgency is driven solely by newly added items, never by removed ones. -/
theorem c2_urgent_iff_added (st : Booked4us) (env : PollEnv) (details free_slots : List Detail)
    (h1 : env.overview = Except.ok details)
    (h2 : extract_free_slots env.probe details = Except.ok free_slots)
    (hch : symmDiffFS st.free_ids (map_to_set free_slots) ≠ ∅) :
    ((async_poll st env).map (fun p => PollResult.isUrgent p.1) = Except.ok true ↔
      map_to_set free_slots \ st.free_ids ≠ ∅)
    ∧ (map_to_set free_slots \ st.free_ids = ∅ →
        (async_poll st env).map (fun p => PollResult.isNormal p.1) = Except.ok true) := by
  have hchb : has_changed st (map_to_set free_slots) = true := by
    simp [has_changed, hch]
  have heq := async_poll_eq st env details free_slots h1 h2
  rw [hchb] at heq
  simp only [if_true] at heq
  by_cases hadd : (extract_added_slots st free_slots).isEmpty
  · have hsd : map_to_set free_slots \ st.free_ids = ∅ := (added_isEmpty_iff _ _).mp hadd
    rw [heq]
    simp [hadd, hsd, Except.map, PollResult.isUrgent, PollResult.isNormal]
  · have hsd : map_to_set free_slots \ st.free_ids ≠ ∅ := by
      intro hcontra
      exact hadd ((added_isEmpty_iff _ _).mpr hcontra)
    rw [heq]
    simp [hadd, hsd, Except.map, PollResult.isUrgent]

/-- C2 witness: with stored free ids {1, 2}, observing {1, 2, 3} yields
Urgent (id 3 newly added), and observing {1} yields Normal (id 2 removed,
nothing added). -/
theorem c2_witness :
    (async_poll st12 env123).map (fun p => PollResult.isUrgent p.1) = Except.ok true
    ∧ (async_poll st12 env1of12).map (fun p => PollResult.isNormal p.1) = Except.ok true := by
  constructor
  · exact (c2_urgent_iff_added st12 env123 [d1, d2, d3] [d1, d2, d3] rfl (by decide)
      (by decide)).1.mpr (by decide)
  · exact (c2_urgent_iff_added st12 env1of12 [d1, d2] [d1] rfl (by decide)
      (by decide)).2 (by decide)

/-- C5 counterexample: a successful poll that detects no change leaves
the stored detail map untouched even when it differs from the newly
fetched one.  Starting from an empty state, the overview fetch returns
detail 1 (with no free slot), the poll succeeds with None, yet the
stored details remain [] while the fetched detail map is [d1]. -/
theorem c5_counterexample :
    async_poll st_empty env_nofree = Except.ok (PollResult.none, st_empty)
    ∧ env_nofree.overview = Except.ok [d1]
    ∧ st_empty.details ≠ [d1] := by
  refine ⟨by decide, by decide, by decide⟩

/-- C5 (amended): on a successful poll that detects a change, the stored
snapshot is replaced wholesale by the newly observed one (free ids and
details); on a successful poll without a change the state is returned
untouched — the stored free-id set then already equals the observed one,
but the stored details are not replaced. -/
theorem c5_snapshot_replacement (st : Booked4us) (env : PollEnv) (details free_slots : List Detail)
    (h1 : env.overview = Except.ok details)
    (h2 : extract_free_slots env.probe details = Except.ok free_slots) :
    (has_changed st (map_to_set free_slots) = true →
      (async_poll st env).map Prod.snd =
        Except.ok { st with free_ids := map_to_set free_slots, details := details })
    ∧ (has_changed st (map_to_set free_slots) = false →
      (async_poll st env).map Prod.snd = Except.ok st
      ∧ st.free_ids = map_to_set free_slots) := by
  have heq := async_poll_eq st env details free_slots h1 h2
  refine ⟨?_, ?_⟩
  · intro hch
    rw [hch] at heq
    simp only [if_true] at heq
    by_cases hadd : (extract_added_slots st free_slots).isEmpty
    · rw [heq]
      simp [hadd, Except.map]
    · rw [heq]
      simp [hadd, Except.map]
  · intro hch
    rw [hch] at heq
    simp only [Bool.false_eq_true, if_false] at heq
    exact ⟨by rw [heq]; simp [Except.map], (has_changed_false_iff _ _).mp hch⟩

/-- C5 witness: with stored free ids {1, 2} and observed free slots
{1, 2, 3}, the change branch replaces the snapshot wholesale. -/
theorem c5_witness :
    (async_poll st12 env123).map Prod.snd =
      Except.ok { st12 with free_ids := map_to_set [d1, d2, d3], details := [d1, d2, d3] } := by
  exact (c5_snapshot_replacement st12 env123 [d1, d2, d3] [d1, d2, d3] rfl (by decide)).1 (by decide)

/-- C3: fan-out over a subscription's ordered sink list is sequential
and short-circuiting, for send_normal and send_urgent alike: if the
sinks before the failing one all succeed, each of them receives the
message exactly once, the failing sink's error is returned, and no sink
after it is invoked; if every sink succeeds, the call returns Ok and
every sink receives the message once. -/
theorem c3_fanout_short_circuit (pre post : List SinkSpec) (s : SinkSpec) (e : String)
    (hpre : ∀ x ∈ pre, okSink x) (hlock : s.lock_err = Option.none) :
    (s.normal_err = Option.some e →
      send_normal (pre ++ s :: post) =
        (Except.error e, pre.map (fun _ => true) ++ true :: post.map (fun _ => false)))
    ∧ (s.urgent_err = Option.some e →
      send_urgent (pre ++ s :: post) =
        (Except.error e, pre.map (fun _ => true) ++ true :: post.map (fun _ => false)))
    ∧ (∀ l : List SinkSpec, (∀ x ∈ l, okSink x) →
        send_normal l = (Except.ok (), l.map (fun _ => true))
        ∧ send_urgent l = (Except.ok (), l.map (fun _ => true))) := by
  refine ⟨?_, ?_, ?_⟩
  · intro hfail
    have hp : ∀ x ∈ pre, x.lock_err = Option.none ∧ x.normal_err = Option.none :=
      fun x hx => ⟨(hpre x hx).1, (hpre x hx).2.1⟩
    rw [send_normal, fanout_append_ok _ pre (s :: post) hp,
      fanout_fail_head _ s post e hlock hfail]
  · intro hfail
    have hp : ∀ x ∈ pre, x.lock_err = Option.none ∧ x.urgent_err = Option.none :=
      fun x hx => ⟨(hpre x hx).1, (hpre x hx).2.2⟩
    rw [send_urgent, fanout_append_ok _ pre (s :: post) hp,
      fanout_fail_head _ s post e hlock hfail]
  · intro l hl
    exact ⟨fanout_all_ok _ l (fun x hx => ⟨(hl x hx).1, (hl x hx).2.1⟩),
      fanout_all_ok _ l (fun x hx => ⟨(hl x hx).1, (hl x hx).2.2⟩)⟩

/-- C3 witness: over sinks [ok, failing, ok], send_normal delivers to
the first sink, returns the second sink's failure, skips the third; over
[ok, ok] every sink is reached and Ok is returned. -/
theorem c3_witness :
    send_normal [sink_ok, sink_bad, sink_ok] = (Except.error boom, [true, true, false])
    ∧ send_urgent [sink_ok, sink_bad, sink_ok] = (Except.error boom, [true, true, false])
    ∧ send_normal [sink_ok, sink_ok] = (Except.ok (), [true, true]) := by
  have h := c3_fanout_short_circuit [sink_ok] [sink_ok] sink_bad boom (by decide) (by decide)
  exact ⟨by simpa using h.1 rfl, by simpa using h.2.1 rfl,
    by simpa using (h.2.2 [sink_ok, sink_ok] (by decide)).1⟩

/-- C4: when poll_once fails (overview fetch or any per-item probe), the
worker survives: the provider's stored snapshot is unchanged, exactly
one message carrying the service title is enqueued to the admin channel,
no subscription sink is invoked, and the iteration proceeds to its
normal sleep phase. -/
theorem c4_poll_error (title : String) (st : Booked4us) (env : PollEnv) (sinks : List SinkSpec)
    (sleep : Nat) (kill : Nat → Bool) (e : String)
    (h : async_poll st env = Except.error e) :
    loopIter title st env sinks sleep kill =
      ⟨⟨st, [admin_send title e], sinks.map (fun _ => false)⟩, sleepLoop kill 0 sleep⟩ := by
  simp [loopIter, serviceCycle, h]

/-- C4 witness: a probe transport error leaves the stored snapshot
{1, 2} intact, enqueues one titled admin message, delivers nothing, and
the worker still runs its two-second sleep schedule. -/
theorem c4_witness :
    loopIter empty_str st12 env_probe_fail [sink_ok] 2 (fun _ => false) =
      ⟨⟨st12, [admin_send empty_str boom], [false]⟩, ⟨2, true, [0, 1]⟩⟩ := by
  have h := c4_poll_error empty_str st12 env_probe_fail [sink_ok] 2 (fun _ => false) boom
    (by decide)
  rw [h]
  decide

/-- C6: when a change is detected but the fan-out delivery fails, the
stored snapshot is nevertheless replaced by the newly observed one (the
snapshot assignment happens inside async_poll, independent of the send
outcome), the delivery error is forwarded to the admin channel with the
service title, and the iteration proceeds to its normal sleep phase. -/
theorem c6_delivery_failure (title : String) (st : Booked4us) (env : PollEnv)
    (sinks : List SinkSpec) (sleep : Nat) (kill : Nat → Bool)
    (details free_slots : List Detail) (e : String)
    (h1 : env.overview = Except.ok details)
    (h2 : extract_free_slots env.probe details = Except.ok free_slots)
    (hch : has_changed st (map_to_set free_slots) = true)
    (hn : (send_normal sinks).1 = Except.error e)
    (hu : (send_urgent sinks).1 = Except.error e) :
    (serviceCycle title st env sinks).provider =
      { st with free_ids := map_to_set free_slots, details := details }
    ∧ (serviceCycle title st env sinks).admin_msgs = [admin_send title e]
    ∧ (loopIter title st env sinks sleep kill).sleep_phase = sleepLoop kill 0 sleep := by
  have heq := async_poll_eq st env details free_slots h1 h2
  rw [hch] at heq
  simp only [if_true] at heq
  by_cases hadd : (extract_added_slots st free_slots).isEmpty
  · rw [hadd] at heq
    simp only [if_true] at heq
    refine ⟨?_, ?_, rfl⟩
    · simp [serviceCycle, heq, hn]
    · simp [serviceCycle, heq, hn]
  · simp only [hadd, Bool.false_eq_true, if_false] at heq
    refine ⟨?_, ?_, rfl⟩
    · simp [serviceCycle, heq, hu]
    · simp [serviceCycle, heq, hu]

/-- C6 witness: stored free ids {1, 2}, observed {1, 2, 3}, and a sink
whose lock is poisoned: the snapshot is still replaced wholesale and the
failure is forwarded as one titled admin message. -/
theorem c6_witness :
    (serviceCycle empty_str st12 env123 [sink_locked]).provider =
      { st12 with free_ids := map_to_set [d1, d2, d3], details := [d1, d2, d3] }
    ∧ (serviceCycle empty_str st12 env123 [sink_locked]).admin_msgs =
      [admin_send empty_str boom] := by
  have h := c6_delivery_failure empty_str st12 env123 [sink_locked] 2 (fun _ => false)
    [d1, d2, d3] [d1, d2, d3] boom rfl (by decide) (by decide) (by decide) (by decide)
  exact ⟨h.1, h.2.1⟩

theorem sleepLoop_first_kill (kill : Nat → Bool) (fuel : Nat) :
    ∀ start i : Nat, start ≤ i → i < start + fuel → kill i = true →
      (∀ j, start ≤ j → j < i → kill j = false) →
      sleepLoop kill start fuel = ⟨i + 1, false, List.range' start (i + 1 - start)⟩ := by
  induction fuel with
  | zero =>
    intro start i _ hhi _ _
    omega
  | succ n ih =>
    intro start i hlow hhi hk hmin
    by_cases hs : start = i
    · subst hs
      have hr : List.range' start (start + 1 - start) = [start] := by
        have : start + 1 - start = 1 := by omega
        rw [this]
        rfl
      simp [sleepLoop, hk, hr]
    · have h1 : kill start = false := hmin start le_rfl (lt_of_le_of_ne hlow hs)
      have hrec := ih (start + 1) i (by omega) (by omega) hk
        (fun j hj1 hj2 => hmin j (by omega) hj2)
      simp only [sleepLoop, h1, Bool.false_eq_true, if_false, hrec]
      have hr : List.range' start (i + 1 - start) = start :: List.range' (start + 1) (i + 1 - (start + 1)) := by
        have hstep : i + 1 - start = (i + 1 - (start + 1)) + 1 := by omega
        rw [hstep, List.range'_succ]
      rw [hr]

theorem workerRunning_false_mono (kf : Nat → Nat → Bool) (sleep n : Nat)
    (h : workerRunning kf sleep n = false) :
    ∀ m, n ≤ m → workerRunning kf sleep m = false := by
  intro m
  induction m with
  | zero =>
    intro hm
    have : n = 0 := Nat.le_zero.mp hm
    rw [← this]
    exact h
  | succ k ih =>
    intro hm
    rcases Nat.lt_or_ge n (k + 1) with hlt | hge
    · have := ih (by omega)
      simp [workerRunning, this]
    · have : n = k + 1 := by omega
      rw [← this]
      exact h

/-- C7: during the sleep phase the worker sleeps in one-second
increments, checking the kill channel after each one; if the kill signal
is first pending at check i (with i < sleep), the loop performs exactly
i + 1 of its sleep increments — the checks are 0..i and the remaining
increments are skipped — clears running, and the worker performs no
further poll iteration. -/
theorem c7_shutdown_latency (sleep i : Nat) (kill : Nat → Bool)
    (hi : i < sleep) (hk : kill i = true) (hmin : ∀ j < i, kill j = false) :
    sleepLoop kill 0 sleep = ⟨i + 1, false, List.range' 0 (i + 1)⟩
    ∧ i + 1 ≤ sleep
    ∧ ∀ (kf : Nat → Nat → Bool) (n m : Nat), kf n = kill → n < m →
        workerRunning kf sleep m = false := by
  have hmain := sleepLoop_first_kill kill sleep 0 i (Nat.zero_le i) (by omega) hk
    (fun j _ hj => hmin j hj)
  refine ⟨by simpa using hmain, by omega, ?_⟩
  intro kf n m hkf hnm
  have hstep : workerRunning kf sleep (n + 1) = false := by
    have hrun : (sleepLoop (kf n) 0 sleep).running = false := by
      rw [hkf, hmain]
    simp [workerRunning, hrun]
  exact workerRunning_false_mono kf sleep (n + 1) hstep m (by omega)

/-- C7 witness: with a 5-tick interval and a kill signal first pending
at check 2, the worker sleeps 3 ticks, checks 0..2, stops running, and
from the following iteration onward the loop is terminated. -/
theorem c7_witness :
    sleepLoop (fun j => j == 2) 0 5 = ⟨3, false, [0, 1, 2]⟩
    ∧ workerRunning (fun _ j => j == 2) 5 1 = false := by
  have h := c7_shutdown_latency 5 2 (fun j => j == 2) (by omega) (by decide)
    (by decide)
  exact ⟨by simpa using h.1, h.2.2 (fun _ j => j == 2) 0 1 rfl (by omega)⟩

/-- C9: a service configured with a poll interval of 0 performs zero
sleep increments per iteration and never reads the kill channel (its
check list is empty), so the running flag stays true after every number
of loop iterations: the worker re-polls forever and never terminates. -/
theorem c9_zero_interval_never_terminates (kill : Nat → Bool) (kf : Nat → Nat → Bool) (n : Nat) :
    sleepLoop kill 0 0 = ⟨0, true, []⟩ ∧ workerRunning kf 0 n = true := by
  refine ⟨rfl, ?_⟩
  induction n with
  | zero => rfl
  | succ k ih =>
    simp [workerRunning, ih, sleepLoop]

/-- C9 witness: even with a kill signal pending at every check, a
zero-interval worker performs no check and is still running after three
iterations. -/
theorem c9_witness :
    sleepLoop (fun _ => true) 0 0 = ⟨0, true, []⟩
    ∧ workerRunning (fun _ _ => true) 0 3 = true := by
  exact c9_zero_interval_never_terminates (fun _ => true) (fun _ _ => true) 3

/-- C8: for every configuration notification entry of the email kind,
registry construction succeeds (NotificatorCollection::from is total and
rejects nothing) and the entry is silently bound to the inert
placeholder sink `Gotify::new("", "")` rather than an email
implementation. -/
theorem c8_email_placeholder (notifications : List (String × NotificationSettings))
    (name : String) (s : EmailSettings)
    (hmem : (name, NotificationSettings.email s) ∈ notifications) :
    (name, Gotify.new empty_str empty_str) ∈ notificatorCollectionFrom notifications
    ∧ ((notifications.map Prod.fst).Nodup →
        (notificatorCollectionFrom notifications).lookup name =
          Option.some (Gotify.new empty_str empty_str)) := by
  have hmap : (name, Gotify.new empty_str empty_str) ∈ notificatorCollectionFrom notifications := by
    have := List.mem_map_of_mem
      (fun p : String × NotificationSettings =>
        (p.1,
          match p.2 with
          | NotificationSettings.gotify s => Gotify.fromSettings s
          | NotificationSettings.email _ => Gotify.new empty_str empty_str)) hmem
    simpa [notificatorCollectionFrom] using this
  refine ⟨hmap, ?_⟩
  intro hnodup
  have hkeys : (notificatorCollectionFrom notifications).map Prod.fst =
      notifications.map Prod.fst := by
    simp [notificatorCollectionFrom]
  exact lookup_eq_of_mem _ name (Gotify.new empty_str empty_str) hmap (by rw [hkeys]; exact hnodup)

/-- C8 witness: a two-entry configuration with one gotify and one email
entry builds a registry binding the email name to the placeholder sink. -/
theorem c8_witness :
    (notificatorCollectionFrom
      [(boom, NotificationSettings.gotify ⟨empty_str, empty_str⟩),
       (empty_str, NotificationSettings.email
         ⟨empty_str, [], empty_str, empty_str, 0, empty_str, empty_str, false⟩)]).lookup empty_str =
      Option.some (Gotify.new empty_str empty_str) := by
  exact (c8_email_placeholder
    [(boom, NotificationSettings.gotify ⟨empty_str, empty_str⟩),
     (empty_str, NotificationSettings.email
       ⟨empty_str, [], empty_str, empty_str, 0, empty_str, empty_str, false⟩)]
    empty_str ⟨empty_str, [], empty_str, empty_str, 0, empty_str, empty_str, false⟩
    (by simp)).2 (by decide)

/-- C10: NotificatorCollection::subcollection resolves names through the
panicking map-indexing operation, modelled as Option.none: it panics iff
some requested name is absent from the registry, and returns normally
iff every requested name exists. -/
theorem c10_subcollection_panics_iff (reg : List (String × Gotify)) (names : List String) :
    (subcollection reg names = Option.none ↔ ∃ n ∈ names, reg.lookup n = Option.none)
    ∧ ((subcollection reg names).isSome ↔ ∀ n ∈ names, (reg.lookup n).isSome) := by
  refine ⟨subcollection_eq_none_iff reg names, ?_⟩
  rw [Option.isSome_iff_ne_none, Ne, subcollection_eq_none_iff reg names]
  push_neg
  constructor
  · intro h n hn
    exact Option.isSome_iff_ne_none.mpr (h n hn)
  · intro h n hn
    exact Option.isSome_iff_ne_none.mp (h n hn)

/-- C10 witness: a registry holding only the name `boom` panics when the
subscription list also requests the absent name `""`, and resolves the
list [boom] normally. -/
theorem c10_witness :
    subcollection [(boom, Gotify.new empty_str empty_str)] [boom, empty_str] = Option.none
    ∧ (subcollection [(boom, Gotify.new empty_str empty_str)] [boom]).isSome = true := by
  constructor
  · exact (c10_subcollection_panics_iff [(boom, Gotify.new empty_str empty_str)]
      [boom, empty_str]).1.mpr ⟨empty_str, by decide, by decide⟩
  · exact (c10_subcollection_panics_iff [(boom, Gotify.new empty_str empty_str)]
      [boom]).2.mpr (by decide)

end CovidVaccPoll
